import Mathlib

/-!
Shallow embedding of the bee-cli device-pairing authentication core.

Sources embedded (names and control flow follow the TypeScript source):
- src/unnamed/part_004 (appPairingRequest.ts): `requestAppPairing`,
  `fetchWithRetry`, `getBackoffDelay`, `NetworkError` / `ServerError`.
- src/sources/utils/appPairingCrypto.ts: `decryptAppPairingToken`.
- src/sources/commands/login/index.ts: `handleLogin`, `loginWithAppPairing`,
  `pollForAppToken`, `buildPairingUrl`.
- src/sources/client/clientMe.ts: `fetchClientMe`, `getBackoffDelay`.
- src/unnamed/part_005 (auth command): `maskToken`.

Modelling conventions:
- Byte buffers are `List Nat` (each entry one byte value); base64
  encode/decode pairs (`Buffer.from(s, "base64")` of a base64 encoding)
  cancel, so wire fields carried as base64 strings in the source are
  carried as their decoded bytes here.
- `fetch` and `context.client.fetch` are external I/O: each is modelled as
  an oracle `Nat -> FetchOutcome` giving the outcome of the n-th attempt
  (a response, or a thrown network-level error).  The login orchestrator
  uses an oracle `Nat -> Nat -> FetchOutcome` indexed by transport call
  number, then by retry attempt.
- JSON bodies are structures of `Option`-typed fields: `none` models a
  field that is missing or not of the type the code tests with `typeof`.
- `Date.parse` of an ISO timestamp string is external; an `expiresAt`
  string is carried as its parse result `Option Nat` (`none` = NaN).
- `nacl.box.open` (library tweetnacl, external) is a parameter
  `boxOpen : Bytes -> Bytes -> Bytes -> Bytes -> Option Bytes`
  taking ciphertext, nonce, sender public key, own secret key.
- Thrown JS errors are `Except` errors; the `NetworkError` / `ServerError`
  subclasses and plain `Error` become the three `CliError` constructors.
- Wall-clock time is a `Nat` of milliseconds threaded through the poll
  loop; transport calls take zero model time and `sleep` advances time.
-/

namespace BeeCli

/-- Byte buffers (`Uint8Array` / `Buffer`) as lists of byte values. -/
abbrev Bytes := List Nat

/-- The error taxonomy of the CLI: the `NetworkError` and `ServerError`
subclasses from src/unnamed/part_004 and the plain JS `Error`. -/
inductive CliError
  | network (msg : String)
  | server (msg : String)
  | error (msg : String)
deriving DecidableEq, Repr

namespace appPairingRequest

/-- src/unnamed/part_004 line 28. -/
def MAX_RETRIES : Nat := 10

/-- src/unnamed/part_004 line 29. -/
def MAX_BACKOFF_MS : Nat := 30000

/-- src/unnamed/part_004 lines 166-169 (`getBackoffDelay`). -/
def getBackoffDelay (attempt : Nat) : Nat :=
  min (1000 * 2 ^ (attempt - 1)) MAX_BACKOFF_MS

/-- The JSON body of a pairing response, as consumed by
`requestAppPairing`: each field is `some v` when present with the type
the code checks for, `none` otherwise.  `expiresAt` is carried as its
`Date.parse` result; `result` is the nested `result.encryptedToken`
(outer `Option`: `result` present as an object, inner: `encryptedToken`
present as a string, carried base64-decoded). -/
structure PairingBody where
  ok : Option Bool := none
  error : Option String := none
  status : Option String := none
  requestId : Option String := none
  expiresAt : Option (Option Nat) := none
  result : Option (Option Bytes) := none
deriving DecidableEq, Repr

/-- A fetch `Response`: its status and the `safeJson` parse of its body. -/
structure HttpResponse where
  status : Nat
  body : Option PairingBody := none
deriving DecidableEq, Repr

/-- JS `Response.ok`: status in the range 200-299. -/
def responseOk (r : HttpResponse) : Bool :=
  200 ≤ r.status && r.status ≤ 299

/-- Outcome of one `fetch` attempt: a response, or a thrown
network-level error (the `catch` branch). -/
inductive FetchOutcome
  | success (r : HttpResponse)
  | netErr (msg : String)

/-- src/unnamed/part_004 lines 151-163: the code after the retry loop of
`fetchWithRetry` (reachable only when the final attempt threw a
network-level error). -/
def afterRetryLoop (lastErr : Option CliError) : Except CliError HttpResponse :=
  match lastErr with
  | some (CliError.network _) =>
      Except.error (CliError.network "Unable to connect to Bee services. Please check your internet connection and try again.")
  | some (CliError.server _) =>
      Except.error (CliError.server "Bee servers are currently experiencing issues. Please try again later.")
  | some e => Except.error e
  | none => Except.error (CliError.error "Request failed after multiple retries.")

/-- src/unnamed/part_004 lines 108-164 (`fetchWithRetry`), the loop body
for attempts `attempt, attempt+1, ..., MAX_RETRIES`.  The `fuel`
parameter only drives structural recursion: every recursive call is
guarded by `attempt < MAX_RETRIES` and decrements `fuel` while
incrementing `attempt`, so starting from
`fuel = MAX_RETRIES, attempt = 1` the `fuel = 0` branch is unreachable.
Note that on the final attempt a 5xx response is returned (the
`attempt < MAX_RETRIES` guard skips the retry, and control falls through
to `return response`), so `afterRetryLoop` is reached only with a
network-type last error. -/
def fetchWithRetryAux (oracle : Nat → FetchOutcome) :
    Nat → Nat → Option CliError → Except CliError HttpResponse
  | 0, _, lastErr => afterRetryLoop lastErr
  | fuel + 1, attempt, _ =>
    match oracle attempt with
    | FetchOutcome.success r =>
        if 500 ≤ r.status ∧ r.status < 600 then
          let e := CliError.server ("Server error: " ++ toString r.status)
          if attempt < MAX_RETRIES then
            fetchWithRetryAux oracle fuel (attempt + 1) (some e)
          else
            Except.ok r
        else
          Except.ok r
    | FetchOutcome.netErr msg =>
        let e := CliError.network msg
        if attempt < MAX_RETRIES then
          fetchWithRetryAux oracle fuel (attempt + 1) (some e)
        else
          afterRetryLoop (some e)

/-- src/unnamed/part_004 `fetchWithRetry`: attempts start at 1. -/
def fetchWithRetry (oracle : Nat → FetchOutcome) : Except CliError HttpResponse :=
  fetchWithRetryAux oracle MAX_RETRIES 1 none

/-- The wire-level pairing outcome (src/unnamed/part_004 lines 3-6).
`expiresAt` is carried as the `Date.parse` result of the ISO string;
`encryptedToken` as its base64-decoded bytes. -/
inductive AppPairingRequest
  | pending (requestId : String) (expiresAt : Option Nat)
  | completed (requestId : String) (encryptedToken : Bytes)
  | expired (requestId : String)
deriving DecidableEq, Repr

/-- src/unnamed/part_004 lines 31-98 (`requestAppPairing`), composed with
`fetchPairing`/`fetchWithRetry`.  The `oracle` gives the outcome of each
fetch attempt for this one call. -/
def requestAppPairing (oracle : Nat → FetchOutcome) :
    Except CliError AppPairingRequest :=
  match fetchWithRetry oracle with
  | Except.error e => Except.error e
  | Except.ok response =>
    if responseOk response = false then
      let errorCode : Option String := response.body.bind (fun b => b.error)
      if response.status = 404 ∧
          (errorCode = none ∨ errorCode = some "" ∨ errorCode = some "Not Found") then
        Except.error (CliError.error "Pairing endpoint not found.")
      else
        let message := match errorCode with
          | some s => s
          | none => "Request failed with status " ++ toString response.status
        Except.error (CliError.error message)
    else
      match response.body with
      | none => Except.error (CliError.error "Invalid response from developer API.")
      | some data =>
        if data.ok ≠ some true then
          Except.error (CliError.error "Invalid response from developer API.")
        else if data.status = some "pending" then
          match data.requestId, data.expiresAt with
          | some rid, some exp => Except.ok (AppPairingRequest.pending rid exp)
          | _, _ => Except.error (CliError.error "Invalid response from developer API.")
        else if data.status = some "completed" then
          match data.requestId, data.result.join with
          | some rid, some tok => Except.ok (AppPairingRequest.completed rid tok)
          | _, _ => Except.error (CliError.error "Invalid response from developer API.")
        else if data.status = some "expired" then
          match data.requestId with
          | some rid => Except.ok (AppPairingRequest.expired rid)
          | none => Except.error (CliError.error "Invalid response from developer API.")
        else
          Except.error (CliError.error "Invalid response from developer API.")

end appPairingRequest

namespace appPairingCrypto

/-- ASCII whitespace bytes removed by the JS `String.prototype.trim`
applied in `decryptAppPairingToken` (tab, LF, VT, FF, CR, space). -/
def jsWhitespaceByte (b : Nat) : Bool :=
  b = 9 || b = 10 || b = 11 || b = 12 || b = 13 || b = 32

/-- `Buffer.toString("utf8").trim()` at the byte level (exact for ASCII
payloads): drop whitespace bytes from both ends. -/
def jsTrimBytes (s : Bytes) : Bytes :=
  ((s.dropWhile jsWhitespaceByte).reverse.dropWhile jsWhitespaceByte).reverse

/-- src/sources/utils/appPairingCrypto.ts lines 23-64
(`decryptAppPairingToken`).  `packed` is the base64-decoded payload;
`boxOpen` is the external `nacl.box.open` primitive
(ciphertext, nonce, sender public key, own secret key).  Errors carry
the thrown message. -/
def decryptAppPairingToken
    (boxOpen : Bytes → Bytes → Bytes → Bytes → Option Bytes)
    (packed : Bytes) (secretKey : Bytes) : Except String Bytes :=
  if packed.length < 1 + 24 + 32 + 16 then
    Except.error "Invalid response from developer API."
  else
    let version := packed.headD 0
    if version ≠ 1 then
      Except.error "Unsupported pairing payload version."
    else
      let nonce := (packed.drop 1).take 24
      let ephemeralPublicKey := (packed.drop 25).take 32
      let ciphertext := packed.drop 57
      match boxOpen ciphertext nonce ephemeralPublicKey secretKey with
      | none => Except.error "Invalid response from developer API."
      | some opened =>
        let token := jsTrimBytes opened
        if token = [] then
          Except.error "Invalid response from developer API."
        else
          Except.ok token

end appPairingCrypto

namespace login

/-- src/sources/secureStore.ts `PairingState` as used by
src/sources/commands/login/index.ts.  `secretKey` is stored base64 in the
source and carried decoded here; `expiresAt` is an ISO string in the
source and carried as its `Date.parse` result. -/
structure PairingState where
  appId : String
  publicKey : String
  secretKey : Bytes
  requestId : String
  pairingUrl : String
  expiresAt : Option Nat
deriving DecidableEq, Repr

/-- src/sources/commands/login/index.ts lines 298-300. -/
def buildPairingUrl (requestId : String) : String :=
  "https://bee.computer/connect/" ++ requestId

/-- The poll interval of `pollForAppToken` (line 275). -/
def intervalMs : Nat := 2000

/-- src/sources/commands/login/index.ts lines 277-295: the `while` loop of
`pollForAppToken`.  `transport call attempt` is the fetch oracle of the
`call`-th transport call issued by this login attempt; `now` is the model
clock in ms.  Returns the result together with the number of transport
calls the loop issued.  The `fuel` parameter only drives structural
recursion: each iteration advances the clock by `intervalMs = 2000`, so
whenever `deadline ≤ now + intervalMs * fuel` the `fuel = 0` branch is
unreachable and the loop is bounded by the `now < deadline` guard alone
(`pollLoop_fuel_irrelevant` below proves the result does not depend on
any sufficient fuel). -/
def pollLoop (boxOpen : Bytes → Bytes → Bytes → Bytes → Option Bytes)
    (transport : Nat → Nat → appPairingRequest.FetchOutcome)
    (secretKey : Bytes) (deadline : Nat) :
    Nat → Nat → Nat → Except CliError Bytes × Nat
  | 0, _, _ =>
    (Except.error (CliError.error "Login timed out. Please try again."), 0)
  | fuel + 1, callIdx, now =>
    if now < deadline then
      match appPairingRequest.requestAppPairing (transport callIdx) with
      | Except.error e => (Except.error e, 1)
      | Except.ok (appPairingRequest.AppPairingRequest.completed _ tok) =>
          (match appPairingCrypto.decryptAppPairingToken boxOpen tok secretKey with
           | Except.ok t => Except.ok t
           | Except.error msg => Except.error (CliError.error msg), 1)
      | Except.ok (appPairingRequest.AppPairingRequest.expired _) =>
          (Except.error (CliError.error "Pairing request expired. Please try again."), 1)
      | Except.ok (appPairingRequest.AppPairingRequest.pending _ _) =>
          let rest := pollLoop boxOpen transport secretKey deadline fuel (callIdx + 1)
            (now + intervalMs)
          (rest.1, rest.2 + 1)
    else
      (Except.error (CliError.error "Login timed out. Please try again."), 0)

/-- src/sources/commands/login/index.ts lines 263-296 (`pollForAppToken`):
computes the deadline from `expiresAt` (`Date.parse` NaN or ≤ 0 falls
back to now + 5 minutes) and runs the poll loop.  The starting fuel
`deadline + 1` satisfies `deadline ≤ now + intervalMs * (deadline + 1)`,
so it is sufficient in the sense of `pollLoop_fuel_irrelevant`. -/
def pollForAppToken (boxOpen : Bytes → Bytes → Bytes → Bytes → Option Bytes)
    (transport : Nat → Nat → appPairingRequest.FetchOutcome)
    (secretKey : Bytes) (expiresAt : Option Nat) (callIdx : Nat) (now : Nat) :
    Except CliError Bytes × Nat :=
  let deadline := match expiresAt with
    | none => now + 5 * 60 * 1000
    | some v => if v = 0 then now + 5 * 60 * 1000 else v
  pollLoop boxOpen transport secretKey deadline (deadline + 1) callIdx now

/-- The outcome of one `loginWithAppPairing` run: the returned token (or
thrown error), the persisted `PairingState` for the environment after the
run, and the number of transport calls issued. -/
structure LoginOutcome where
  result : Except CliError Bytes
  store : Option PairingState
  calls : Nat
deriving Repr

/-- Lines 192-193: `const expiresAtMs = Date.parse(...); const isExpired =
!Number.isNaN(expiresAtMs) && Date.now() >= expiresAtMs;`. -/
def resumeIsExpired (st : PairingState) (now : Nat) : Bool :=
  match st.expiresAt with
  | some v => now ≥ v
  | none => false

/-- src/sources/commands/login/index.ts lines 218-260: the fresh-start
part of `loginWithAppPairing` (after any stored state was handled).
`store0` is the persisted state on entry (always `none` on reachable
paths).  `appId`, `publicKeyB64`, `secretKey` come from
`getDefaultAppId` and `generateAppPairingKeyPair` (external RNG).  Note
the `catch (error) { throw error; }` at lines 258-260: a poll failure
propagates without `clearPairingState`, so the state saved for the
attempt stays persisted. -/
def loginFresh (boxOpen : Bytes → Bytes → Bytes → Bytes → Option Bytes)
    (transport : Nat → Nat → appPairingRequest.FetchOutcome)
    (appId publicKeyB64 : String) (secretKey : Bytes)
    (store0 : Option PairingState) (callIdx : Nat) (now : Nat) : LoginOutcome :=
  match appPairingRequest.requestAppPairing (transport callIdx) with
  | Except.error e => { result := Except.error e, store := store0, calls := 1 }
  | Except.ok (appPairingRequest.AppPairingRequest.completed _ tok) =>
      { result :=
          match appPairingCrypto.decryptAppPairingToken boxOpen tok secretKey with
          | Except.ok t => Except.ok t
          | Except.error msg => Except.error (CliError.error msg)
        store := store0
        calls := 1 }
  | Except.ok (appPairingRequest.AppPairingRequest.expired _) =>
      { result := Except.error (CliError.error "Pairing request expired. Please try again.")
        store := store0
        calls := 1 }
  | Except.ok (appPairingRequest.AppPairingRequest.pending rid exp) =>
      let st : PairingState :=
        { appId := appId
          publicKey := publicKeyB64
          secretKey := secretKey
          requestId := rid
          pairingUrl := buildPairingUrl rid
          expiresAt := exp }
      let polled := pollForAppToken boxOpen transport secretKey exp (callIdx + 1) now
      match polled.1 with
      | Except.ok tok => { result := Except.ok tok, store := none, calls := 1 + polled.2 }
      | Except.error e => { result := Except.error e, store := some st, calls := 1 + polled.2 }

/-- src/sources/commands/login/index.ts lines 185-261
(`loginWithAppPairing`).  `stored` is the `loadPairingState` result.  On
the resume path (stored state present and not expired) the state is
cleared after polling on both the success and the error branch
(lines 199-212); an expired stored state is cleared and the flow falls
through to the fresh start. -/
def loginWithAppPairing (boxOpen : Bytes → Bytes → Bytes → Bytes → Option Bytes)
    (transport : Nat → Nat → appPairingRequest.FetchOutcome)
    (appId publicKeyB64 : String) (secretKey : Bytes)
    (stored : Option PairingState) (now : Nat) : LoginOutcome :=
  match stored with
  | some st =>
    if resumeIsExpired st now then
      loginFresh boxOpen transport appId publicKeyB64 secretKey none 0 now
    else
      let polled := pollForAppToken boxOpen transport st.secretKey st.expiresAt 0 now
      match polled.1 with
      | Except.ok tok => { result := Except.ok tok, store := none, calls := polled.2 }
      | Except.error e => { result := Except.error e, store := none, calls := polled.2 }
  | none => loginFresh boxOpen transport appId publicKeyB64 secretKey none 0 now

end login

namespace clientMe

/-- src/sources/client/clientMe.ts line 13. -/
def MAX_RETRIES : Nat := 10

/-- src/sources/client/clientMe.ts line 14. -/
def MAX_BACKOFF_MS : Nat := 30000

/-- src/sources/client/clientMe.ts lines 106-108 (`getBackoffDelay`). -/
def getBackoffDelay (attempt : Nat) : Nat :=
  min (1000 * 2 ^ (attempt - 1)) MAX_BACKOFF_MS

/-- The JSON body of a `/v1/me` response as consumed by `fetchClientMe`:
`some v` when the field is present with the type the code checks. -/
structure MeBody where
  error : Option String := none
  id : Option Int := none
  first_name : Option String := none
  last_name : Option String := none
deriving DecidableEq, Repr

/-- A `context.client.fetch` response: status and `safeJson` body. -/
structure HttpResponse where
  status : Nat
  body : Option MeBody := none
deriving DecidableEq, Repr

/-- JS `Response.ok`: status in the range 200-299. -/
def responseOk (r : HttpResponse) : Bool :=
  200 ≤ r.status && r.status ≤ 299

/-- Outcome of one `context.client.fetch` attempt. -/
inductive FetchOutcome
  | success (r : HttpResponse)
  | netErr (msg : String)

/-- src/sources/client/clientMe.ts lines 91-103: the code after the retry
loop of its `fetchWithRetry` (same duplicated shape as the pairing
transport). -/
def afterRetryLoop (lastErr : Option CliError) : Except CliError HttpResponse :=
  match lastErr with
  | some (CliError.network _) =>
      Except.error (CliError.network "Unable to connect to Bee services. Please check your internet connection and try again.")
  | some (CliError.server _) =>
      Except.error (CliError.server "Bee servers are currently experiencing issues. Please try again later.")
  | some e => Except.error e
  | none => Except.error (CliError.error "Request failed after multiple retries.")

/-- src/sources/client/clientMe.ts lines 45-104 (`fetchWithRetry`): the
loop body for attempts `attempt, ..., MAX_RETRIES`; same structure as the
pairing transport, duplicated in the source.  As there, the `fuel`
parameter only drives structural recursion and its zero branch is
unreachable from `fuel = MAX_RETRIES, attempt = 1`. -/
def fetchWithRetryAux (oracle : Nat → FetchOutcome) :
    Nat → Nat → Option CliError → Except CliError HttpResponse
  | 0, _, lastErr => afterRetryLoop lastErr
  | fuel + 1, attempt, _ =>
    match oracle attempt with
    | FetchOutcome.success r =>
        if 500 ≤ r.status ∧ r.status < 600 then
          let e := CliError.server ("Server error: " ++ toString r.status)
          if attempt < MAX_RETRIES then
            fetchWithRetryAux oracle fuel (attempt + 1) (some e)
          else
            Except.ok r
        else
          Except.ok r
    | FetchOutcome.netErr msg =>
        let e := CliError.network msg
        if attempt < MAX_RETRIES then
          fetchWithRetryAux oracle fuel (attempt + 1) (some e)
        else
          afterRetryLoop (some e)

/-- src/sources/client/clientMe.ts `fetchWithRetry`, attempts from 1. -/
def fetchWithRetry (oracle : Nat → FetchOutcome) : Except CliError HttpResponse :=
  fetchWithRetryAux oracle MAX_RETRIES 1 none

/-- src/sources/client/clientMe.ts lines 7-11 (`ClientUser`). -/
structure ClientUser where
  id : Int
  first_name : String
  last_name : Option String
deriving DecidableEq, Repr

/-- src/sources/client/clientMe.ts lines 16-43 (`fetchClientMe`): the
credential verifier.  The `oracle` gives the outcome of each fetch
attempt of this one call (the request carries the candidate token in the
Authorization header; the oracle is already specialized to it). -/
def fetchClientMe (oracle : Nat → FetchOutcome) : Except CliError ClientUser :=
  match fetchWithRetry oracle with
  | Except.error e => Except.error e
  | Except.ok response =>
    if responseOk response = false then
      let message := match response.body.bind (fun b => b.error) with
        | some s => s
        | none => "Request failed with status " ++ toString response.status
      Except.error (CliError.error message)
    else
      match response.body with
      | none => Except.error (CliError.error "Invalid response from API.")
      | some data =>
        match data.id, data.first_name with
        | some i, some fn =>
            Except.ok { id := i, first_name := fn, last_name := data.last_name }
        | _, _ => Except.error (CliError.error "Invalid response from API.")

end clientMe

namespace auth

/-- Whitespace characters removed by the JS `String.prototype.trim`
(ASCII subset: tab, LF, VT, FF, CR, space). -/
def jsWhitespaceChar (c : Char) : Bool :=
  c = ' ' || c = Char.ofNat 9 || c = Char.ofNat 10 || c = Char.ofNat 11 ||
    c = Char.ofNat 12 || c = Char.ofNat 13

/-- JS `String.prototype.trim` on a Lean string. -/
def jsTrimString (s : String) : String :=
  (((s.toList.dropWhile jsWhitespaceChar).reverse.dropWhile jsWhitespaceChar).reverse).asString

/-- src/unnamed/part_005 lines 213-219 (`maskToken`, identical in
src/sources/commands/auth/index.ts lines 210-216).  JS `slice(0, 4)` is
the first four characters, `slice(-4)` the last four. -/
def maskToken (token : String) : String :=
  let trimmed := jsTrimString token
  if trimmed.length ≤ 8 then
    "********"
  else
    (trimmed.toList.take 4).asString ++ "..." ++
      (trimmed.toList.drop (trimmed.toList.length - 4)).asString

end auth

namespace login

/-- Events observable by the secret store and identity endpoint during
`handleLogin`: a `fetchClientMe` verification of a token, and a
`saveToken` persistence of a token. -/
inductive LoginEvent
  | verifyTok (tok : String)
  | saveTok (tok : String)
deriving DecidableEq, Repr

/-- JS truthiness of a `string | undefined` token variable: `undefined`
and the empty string are falsy. -/
def jsFalsy : Option String → Bool
  | none => true
  | some s => s = ""

/-- How `handleLogin` leaves its token-acquisition phase: an early
return (already connected), a candidate token to verify and save, or an
error thrown before verification. -/
inductive HandleStep
  | alreadyConnected
  | useToken (tok : String)
  | failed (e : CliError)
deriving DecidableEq, Repr

/-- `token = await loginWithAppPairing(...)` inside `handleLogin`: the
pairing result either supplies the candidate token or throws. -/
def pairingStep (pairing : Except CliError String) (evs : List LoginEvent) :
    HandleStep × List LoginEvent :=
  match pairing with
  | Except.ok t => (HandleStep.useToken t, evs)
  | Except.error e => (HandleStep.failed e, evs)

/-- src/sources/commands/login/index.ts lines 51-82: the token-acquisition
phase of `handleLogin`.  `provided` is `options.token` (or the stdin
token), `existing` the `loadToken` result, `clientFetch tok` the fetch
oracle of a `fetchClientMe` call with token `tok`, and `pairing` the
outcome of `loginWithAppPairing`.  Lines 56-58 trim a truthy provided
token; line 60 `if (!token)` sends falsy tokens into the
already-authenticated check and the pairing flow. -/
def acquireToken (clientFetch : String → Nat → clientMe.FetchOutcome)
    (provided existing : Option String) (pairing : Except CliError String) :
    HandleStep × List LoginEvent :=
  let token0 : Option String := match provided with
    | none => none
    | some t => some (if t = "" then t else auth.jsTrimString t)
  if jsFalsy token0 then
    match existing with
    | some ex =>
      if ex = "" then
        pairingStep pairing []
      else
        match clientMe.fetchClientMe (clientFetch ex) with
        | Except.ok _ => (HandleStep.alreadyConnected, [LoginEvent.verifyTok ex])
        | Except.error _ => pairingStep pairing [LoginEvent.verifyTok ex]
    | none => pairingStep pairing []
  else
    match token0 with
    | some t => (HandleStep.useToken t, [])
    | none => pairingStep pairing []

/-- src/sources/commands/login/index.ts lines 84-95: the verification and
persistence phase of `handleLogin` run on the acquired step: reject a
falsy token (line 84 `Missing token.`), trim it (line 88), verify it with
`fetchClientMe` (line 90) and only then `saveToken` (line 92). -/
def handleLoginFinish (clientFetch : String → Nat → clientMe.FetchOutcome)
    (step : HandleStep × List LoginEvent) :
    Except CliError Unit × List LoginEvent :=
  match step.1 with
  | HandleStep.failed e => (Except.error e, step.2)
  | HandleStep.alreadyConnected => (Except.ok (), step.2)
  | HandleStep.useToken t =>
    if t = "" then
      (Except.error (CliError.error "Missing token."), step.2)
    else
      match clientMe.fetchClientMe (clientFetch (auth.jsTrimString t)) with
      | Except.error e =>
          (Except.error e, step.2 ++ [LoginEvent.verifyTok (auth.jsTrimString t)])
      | Except.ok _ =>
          (Except.ok (), step.2 ++ [LoginEvent.verifyTok (auth.jsTrimString t),
            LoginEvent.saveTok (auth.jsTrimString t)])

/-- src/sources/commands/login/index.ts lines 41-95 (`handleLogin`), after
argument parsing: acquire a candidate token, then verify and persist it.
Returns the command outcome and the verify/save event trace. -/
def handleLogin (clientFetch : String → Nat → clientMe.FetchOutcome)
    (provided existing : Option String) (pairing : Except CliError String) :
    Except CliError Unit × List LoginEvent :=
  handleLoginFinish clientFetch (acquireToken clientFetch provided existing pairing)

end login

namespace fixtures

/-- A concrete model of the external `nacl.box` primitive used to
instantiate theorems: sealing prepends a 16-byte tag of zeros (so the
ciphertext is 16 bytes longer than the plaintext, as in NaCl). -/
def mockBoxSeal (m _nonce _pk _sk : Bytes) : Bytes :=
  List.replicate 16 0 ++ m

/-- The matching `nacl.box.open` model: strips the 16-byte tag; fails on
ciphertexts shorter than the tag.  Satisfies
`mockBoxOpen (mockBoxSeal m n pk sk) n pk sk = some m`. -/
def mockBoxOpen (c _nonce _pk _sk : Bytes) : Option Bytes :=
  if 16 ≤ c.length then some (c.drop 16) else none

/-- A box-open model that always fails (used to show the decryptor never
consults the primitive on malformed payloads). -/
def noneBoxOpen (_c _nonce _pk _sk : Bytes) : Option Bytes :=
  none

/-- The bytes of the token "tok_abc123" of the end-to-end spec example. -/
def tokBytes : Bytes := [116, 111, 107, 95, 97, 98, 99, 49, 50, 51]

/-- `mockBoxSeal` applied to `tokBytes`. -/
def sealedTok : Bytes := List.replicate 16 0 ++ tokBytes

/-- A wire `encryptedToken` payload for `tokBytes`: version byte 1, a
24-byte nonce, a 32-byte ephemeral public key, then the ciphertext. -/
def payloadTok : Bytes :=
  1 :: (List.replicate 24 0 ++ List.replicate 32 0 ++ sealedTok)

/-- A pending-status success body. -/
def pendingBody (rid : String) (exp : Option Nat) : appPairingRequest.PairingBody :=
  { ok := some true, status := some "pending", requestId := some rid,
    expiresAt := some exp }

/-- An expired-status success body. -/
def expiredBody (rid : String) : appPairingRequest.PairingBody :=
  { ok := some true, status := some "expired", requestId := some rid }

/-- A completed-status success body carrying an encrypted token. -/
def completedBody (rid : String) (tok : Bytes) : appPairingRequest.PairingBody :=
  { ok := some true, status := some "completed", requestId := some rid,
    result := some (some tok) }

/-- A 200 response with the given pairing body. -/
def okResp (b : appPairingRequest.PairingBody) : appPairingRequest.FetchOutcome :=
  appPairingRequest.FetchOutcome.success { status := 200, body := some b }

/-- Every fetch attempt receives a bare HTTP 503 (a 5xx on all 10 tries). -/
def allServer503 : Nat → appPairingRequest.FetchOutcome :=
  fun _ => appPairingRequest.FetchOutcome.success { status := 503, body := none }

/-- Every attempt of every transport call throws a network-level error. -/
def serverAllNetErr : Nat → Nat → appPairingRequest.FetchOutcome :=
  fun _ _ => appPairingRequest.FetchOutcome.netErr "ECONNREFUSED"

/-- Scenario for C2: the initial request answers Pending (expiry 60 s
out), the first poll answers Expired. -/
def serverPendingThenExpired : Nat → Nat → appPairingRequest.FetchOutcome :=
  fun call _ =>
    if call = 0 then okResp (pendingBody "r1" (some 60000))
    else okResp (expiredBody "r1")

/-- Scenario for C3: the initial request answers Pending, every later
transport call fails with a network error on all 10 attempts. -/
def serverPendingThenNetErr : Nat → Nat → appPairingRequest.FetchOutcome :=
  fun call _ =>
    if call = 0 then okResp (pendingBody "r1" (some 60000))
    else appPairingRequest.FetchOutcome.netErr "ECONNREFUSED"

/-- Scenario for C6: Pending with expiry 10 s out to the initial request,
Pending to the first poll, Completed (with a decryptable token) to the
second poll. -/
def serverC6 : Nat → Nat → appPairingRequest.FetchOutcome :=
  fun call _ =>
    if call = 0 then okResp (pendingBody "r1" (some 10000))
    else if call = 1 then okResp (pendingBody "r1" (some 10000))
    else okResp (completedBody "r1" payloadTok)

/-- A stored, unexpired `PairingState` (expiry 60 s after clock 0). -/
def storedState : login.PairingState :=
  { appId := "test-app"
    publicKey := "PK"
    secretKey := [7]
    requestId := "r1"
    pairingUrl := "https://bee.computer/connect/r1"
    expiresAt := some 60000 }

/-- An identity endpoint that accepts every token with a 200 profile. -/
def meAccepts : String → Nat → clientMe.FetchOutcome :=
  fun _ _ => clientMe.FetchOutcome.success
    { status := 200, body := some { id := some 1, first_name := some "Ada" } }

end fixtures

/-- The structural fuel of `pollLoop` is only a termination device: any
two fuels sufficient for the deadline (each iteration advances `now` by
`intervalMs`) give the same result, so the loop is governed solely by the
`now < deadline` guard, as in the source. -/
theorem pollLoop_fuel_irrelevant
    (boxOpen : Bytes → Bytes → Bytes → Bytes → Option Bytes)
    (transport : Nat → Nat → appPairingRequest.FetchOutcome)
    (secretKey : Bytes) (deadline : Nat) :
    ∀ f1 f2 callIdx now, deadline ≤ now + login.intervalMs * f1 →
      deadline ≤ now + login.intervalMs * f2 →
      login.pollLoop boxOpen transport secretKey deadline f1 callIdx now =
        login.pollLoop boxOpen transport secretKey deadline f2 callIdx now := by
  intro f1
  induction f1 with
  | zero =>
    intro f2 callIdx now h1 h2
    have hnl : ¬ now < deadline := by
      simp only [login.intervalMs] at h1
      omega
    cases f2 with
    | zero => rfl
    | succ g2 => simp [login.pollLoop, hnl]
  | succ g1 ih =>
    intro f2 callIdx now h1 h2
    cases f2 with
    | zero =>
      have hnl : ¬ now < deadline := by
        simp only [login.intervalMs] at h2
        omega
      simp [login.pollLoop, hnl]
    | succ g2 =>
      by_cases hlt : now < deadline
      · simp only [login.pollLoop, hlt, if_true]
        cases hreq : appPairingRequest.requestAppPairing (transport callIdx) with
        | error e => rfl
        | ok a =>
          cases a with
          | pending rid exp =>
            have hrec := ih g2 (callIdx + 1) (now + login.intervalMs)
              (by simp only [login.intervalMs] at h1 ⊢; omega)
              (by simp only [login.intervalMs] at h2 ⊢; omega)
            simp only [hrec]
          | completed rid tok => rfl
          | expired rid => rfl
      · simp [login.pollLoop, hlt]

/-- Claim C1 (code bug): when all 10 fetch attempts of `requestAppPairing`
receive an HTTP 5xx response, the claim says a distinguishable
`ServerError` is raised; the code instead has `fetchWithRetry` return the
final 5xx response (the post-loop `throw new ServerError` is
unreachable), and `requestAppPairing` then throws a plain generic
`Error` built from the status.  This theorem evaluates the code at the
failing input: ten straight 503 responses yield the generic error. -/
theorem requestAppPairing_all5xx_raises_generic :
    appPairingRequest.requestAppPairing fixtures.allServer503 =
      Except.error (CliError.error "Request failed with status 503") := rfl

/-- Claim C2 (code bug): the claim (and spec) say every terminal outcome
other than success clears the persisted `PairingState` on both paths;
on the fresh-start path the catch block of `loginWithAppPairing`
(lines 258-260) just rethrows, so after the server reports Expired on the
first poll the saved state is still persisted when the error
propagates. -/
theorem loginWithAppPairing_fresh_terminal_keeps_state :
    (login.loginWithAppPairing fixtures.mockBoxOpen fixtures.serverPendingThenExpired
        "test-app" "PK" [7] none 0).result =
      Except.error (CliError.error "Pairing request expired. Please try again.") ∧
    (login.loginWithAppPairing fixtures.mockBoxOpen fixtures.serverPendingThenExpired
        "test-app" "PK" [7] none 0).store =
      some { appId := "test-app", publicKey := "PK", secretKey := [7],
             requestId := "r1", pairingUrl := "https://bee.computer/connect/r1",
             expiresAt := some 60000 } :=
  ⟨rfl, rfl⟩

/-- Claim C3 counterexample: on the resume path, a login attempt that
fails because the transport exhausted its retries with a `NetworkError`
does NOT leave the persisted `PairingState` unchanged: the catch block of
the resume path (lines 209-212) calls `clearPairingState` on every error,
so the stored state is gone afterwards. -/
theorem loginWithAppPairing_resume_network_clears_state :
    (login.loginWithAppPairing fixtures.mockBoxOpen fixtures.serverAllNetErr
        "test-app" "PK" [7] (some fixtures.storedState) 0).result =
      Except.error (CliError.network "Unable to connect to Bee services. Please check your internet connection and try again.") ∧
    (login.loginWithAppPairing fixtures.mockBoxOpen fixtures.serverAllNetErr
        "test-app" "PK" [7] (some fixtures.storedState) 0).store = none ∧
    (login.loginWithAppPairing fixtures.mockBoxOpen fixtures.serverAllNetErr
        "test-app" "PK" [7] (some fixtures.storedState) 0).store ≠
      some fixtures.storedState :=
  ⟨rfl, rfl, by decide⟩

/-- Claim C3 as amended: when the transport fails (for instance with a
`NetworkError` after exhausting retries), the fresh-start path leaves
the `PairingState` saved for the attempt in place, so a later invocation
can resume it; the resume path instead clears the state
unconditionally. -/
theorem loginWithAppPairing_state_after_network_failure
    (boxOpen : Bytes → Bytes → Bytes → Bytes → Option Bytes)
    (transport : Nat → Nat → appPairingRequest.FetchOutcome)
    (appId pk : String) (sk : Bytes) (st : login.PairingState) (now : Nat)
    (rid : String) (exp : Option Nat) (msg : String)
    (h1 : login.resumeIsExpired st now = false)
    (h2 : appPairingRequest.requestAppPairing (transport 0) =
      Except.ok (appPairingRequest.AppPairingRequest.pending rid exp))
    (h3 : (login.pollForAppToken boxOpen transport sk exp 1 now).1 =
      Except.error (CliError.network msg)) :
    (login.loginWithAppPairing boxOpen transport appId pk sk (some st) now).store = none ∧
    (login.loginWithAppPairing boxOpen transport appId pk sk none now).store =
      some { appId := appId, publicKey := pk, secretKey := sk, requestId := rid,
             pairingUrl := login.buildPairingUrl rid, expiresAt := exp } := by
  constructor
  · simp only [login.loginWithAppPairing, h1, Bool.false_eq_true, if_false]
    split <;> rfl
  · simp only [login.loginWithAppPairing, login.loginFresh, h2]
    simp only [Nat.zero_add, h3]

/-- Claim C3 witness: the amended statement at a concrete input (stored
unexpired state; initial request answers Pending; every later transport
call fails its 10 attempts with network errors). -/
theorem loginWithAppPairing_state_after_network_failure_witness :
    (login.loginWithAppPairing fixtures.mockBoxOpen fixtures.serverPendingThenNetErr
        "test-app" "PK" [7] (some fixtures.storedState) 0).store = none ∧
    (login.loginWithAppPairing fixtures.mockBoxOpen fixtures.serverPendingThenNetErr
        "test-app" "PK" [7] none 0).store =
      some { appId := "test-app", publicKey := "PK", secretKey := [7],
             requestId := "r1", pairingUrl := login.buildPairingUrl "r1",
             expiresAt := some 60000 } :=
  loginWithAppPairing_state_after_network_failure fixtures.mockBoxOpen
    fixtures.serverPendingThenNetErr "test-app" "PK" [7] fixtures.storedState 0
    "r1" (some 60000)
    "Unable to connect to Bee services. Please check your internet connection and try again."
    (by decide) rfl rfl

/-- Claim C4 counterexample: the round-trip is not exact for every
plaintext.  The payload below is well-formed (version byte 1, 24-byte
nonce, 32-byte ephemeral public key, ciphertext box-sealing the
plaintext `[32, 97, 32]`, the bytes of a space, the letter a, a space):
the box model recovers exactly `[32, 97, 32]`, yet
`decryptAppPairingToken` answers `[97]`, because it trims the decoded
token, so the original plaintext is not returned exactly. -/
theorem decryptAppPairingToken_trims_whitespace_plaintext :
    fixtures.mockBoxOpen
        (fixtures.mockBoxSeal [32, 97, 32] (List.replicate 24 0) (List.replicate 32 0) [7])
        (List.replicate 24 0) (List.replicate 32 0) [7] = some [32, 97, 32] ∧
    appPairingCrypto.decryptAppPairingToken fixtures.mockBoxOpen
        (1 :: (List.replicate 24 0 ++ List.replicate 32 0 ++
          fixtures.mockBoxSeal [32, 97, 32] (List.replicate 24 0) (List.replicate 32 0) [7]))
        [7] =
      Except.ok [97] ∧
    ([97] : Bytes) ≠ [32, 97, 32] :=
  ⟨rfl, rfl, by decide⟩

/-- Claim C4 as amended: for every plaintext that is nonempty and has no
leading or trailing whitespace, and every well-formed payload (version
byte 1, 24-byte nonce, 32-byte ephemeral sender public key, ciphertext of
at least tag length that the box primitive opens to the plaintext under
the recipient secret key), `decryptAppPairingToken` returns the original
plaintext exactly. -/
theorem decryptAppPairingToken_roundTrip
    (boxOpen : Bytes → Bytes → Bytes → Bytes → Option Bytes)
    (m n epk ct sk : Bytes)
    (hn : n.length = 24) (hepk : epk.length = 32) (hct : 16 ≤ ct.length)
    (hopen : boxOpen ct n epk sk = some m)
    (htrim : appPairingCrypto.jsTrimBytes m = m) (hne : m ≠ []) :
    appPairingCrypto.decryptAppPairingToken boxOpen (1 :: (n ++ epk ++ ct)) sk =
      Except.ok m := by
  have hassoc : n ++ epk ++ ct = n ++ (epk ++ ct) := List.append_assoc n epk ct
  have hlen : ¬ ((1 :: (n ++ epk ++ ct)).length < 1 + 24 + 32 + 16) := by
    simp only [List.length_cons, List.length_append, hn, hepk]
    omega
  have hnonce : ((1 :: (n ++ epk ++ ct)).drop 1).take 24 = n := by
    simp only [List.drop_succ_cons, List.drop_zero, hassoc]
    exact List.take_left' hn
  have hpk : ((1 :: (n ++ epk ++ ct)).drop 25).take 32 = epk := by
    have h25 : (1 :: (n ++ (epk ++ ct))).drop 25 = (n ++ (epk ++ ct)).drop 24 := rfl
    simp only [hassoc, h25, List.drop_left' hn]
    exact List.take_left' hepk
  have hctx : (1 :: (n ++ epk ++ ct)).drop 57 = ct := by
    have h57 : (1 :: (n ++ (epk ++ ct))).drop 57 = (n ++ (epk ++ ct)).drop 56 := rfl
    have h56 : (n ++ (epk ++ ct)).drop 56 = ((n ++ (epk ++ ct)).drop 24).drop 32 := by
      rw [List.drop_drop]
    simp only [hassoc, h57, h56, List.drop_left' hn, List.drop_left' hepk]
  simp only [appPairingCrypto.decryptAppPairingToken, hlen, if_false,
    List.headD_cons, hnonce, hpk, hctx, hopen, htrim, hne]
  simp [htrim, hne]

/-- Claim C4 witness: the amended round-trip at a concrete input (the
token bytes of "tok_abc123" sealed by the concrete box model). -/
theorem decryptAppPairingToken_roundTrip_witness :
    appPairingCrypto.decryptAppPairingToken fixtures.mockBoxOpen
      (1 :: (List.replicate 24 0 ++ List.replicate 32 0 ++ fixtures.sealedTok)) [7] =
    Except.ok fixtures.tokBytes :=
  decryptAppPairingToken_roundTrip fixtures.mockBoxOpen fixtures.tokBytes
    (List.replicate 24 0) (List.replicate 32 0) fixtures.sealedTok [7]
    (by decide) (by decide) (by decide) rfl (by decide) (by decide)

/-- Claim C5: for every input whose decoded payload is shorter than 73
bytes, `decryptAppPairingToken` fails with the length error without ever
invoking `nacl.box.open` (the result is the same for any two box-open
primitives, so the primitive is never consulted), and this length error
is produced even when the first byte also differs from 1, so the length
check precedes the version check; for every payload of at least 73 bytes
whose first byte differs from 1, it fails with the version error, again
without invoking the box primitive. -/
theorem decryptAppPairingToken_checks_before_open
    (o1 o2 : Bytes → Bytes → Bytes → Bytes → Option Bytes) (packed sk : Bytes) :
    (packed.length < 73 →
      appPairingCrypto.decryptAppPairingToken o1 packed sk =
        Except.error "Invalid response from developer API." ∧
      appPairingCrypto.decryptAppPairingToken o1 packed sk =
        appPairingCrypto.decryptAppPairingToken o2 packed sk) ∧
    (73 ≤ packed.length → packed.headD 0 ≠ 1 →
      appPairingCrypto.decryptAppPairingToken o1 packed sk =
        Except.error "Unsupported pairing payload version." ∧
      appPairingCrypto.decryptAppPairingToken o1 packed sk =
        appPairingCrypto.decryptAppPairingToken o2 packed sk) := by
  constructor
  · intro h
    have hlt : packed.length < 1 + 24 + 32 + 16 := by omega
    refine ⟨?_, ?_⟩ <;> simp [appPairingCrypto.decryptAppPairingToken, hlt]
  · intro h1 h2
    have hge : ¬ packed.length < 1 + 24 + 32 + 16 := by omega
    have h2g : ¬ (packed.head?).getD 0 = 1 := by
      cases packed with
      | nil => simp at h1
      | cons b l => simpa [List.headD] using h2
    refine ⟨?_, ?_⟩ <;> simp [appPairingCrypto.decryptAppPairingToken, hge, h2g]

/-- Claim C5 witness: the checks at concrete inputs: a 1-byte payload
(with first byte already different from 1) gets the length error, and a
73-byte payload with version byte 2 gets the version error, under the
concrete box model. -/
theorem decryptAppPairingToken_checks_before_open_witness :
    appPairingCrypto.decryptAppPairingToken fixtures.mockBoxOpen [2] [7] =
      Except.error "Invalid response from developer API." ∧
    appPairingCrypto.decryptAppPairingToken fixtures.mockBoxOpen
        (2 :: List.replicate 72 0) [7] =
      Except.error "Unsupported pairing payload version." :=
  ⟨((decryptAppPairingToken_checks_before_open fixtures.mockBoxOpen fixtures.noneBoxOpen
      [2] [7]).1 (by decide)).1,
   ((decryptAppPairingToken_checks_before_open fixtures.mockBoxOpen fixtures.noneBoxOpen
      (2 :: List.replicate 72 0) [7]).2 (by decide) (by decide)).1⟩

/-- Claim C6 counterexample: with the server answering Pending (expiry
10 s out) to the initial request, Pending to the next poll, and Completed
to the poll after that, the orchestrator does terminate successfully, but
it issues 3 transport calls in total (1 initial + 2 from the poll loop),
not the 4 the claim states. -/
theorem loginWithAppPairing_total_calls_ne_four :
    (login.loginWithAppPairing fixtures.mockBoxOpen fixtures.serverC6
        "test-app" "PK" [7] none 0).result = Except.ok fixtures.tokBytes ∧
    (login.loginWithAppPairing fixtures.mockBoxOpen fixtures.serverC6
        "test-app" "PK" [7] none 0).calls ≠ 4 :=
  ⟨rfl, by decide⟩

/-- Claim C6 as amended: in that scenario the orchestrator terminates
successfully (returning the decrypted token), the poll loop issues
exactly 2 transport calls, and with the initial request the login issues
exactly 3 transport calls in total. -/
theorem loginWithAppPairing_pending_pending_completed_calls :
    (login.loginWithAppPairing fixtures.mockBoxOpen fixtures.serverC6
        "test-app" "PK" [7] none 0).result = Except.ok fixtures.tokBytes ∧
    (login.pollForAppToken fixtures.mockBoxOpen fixtures.serverC6 [7]
        (some 10000) 1 0).2 = 2 ∧
    (login.loginWithAppPairing fixtures.mockBoxOpen fixtures.serverC6
        "test-app" "PK" [7] none 0).calls = 3 :=
  ⟨rfl, rfl, rfl⟩

/-- No `saveToken` event is emitted during the token-acquisition phase of
`handleLogin`: its traces contain only verification events. -/
theorem acquireToken_no_save (clientFetch : String → Nat → clientMe.FetchOutcome)
    (provided existing : Option String) (pairing : Except CliError String)
    (t : String) :
    login.LoginEvent.saveTok t ∉
      (login.acquireToken clientFetch provided existing pairing).2 := by
  unfold login.acquireToken login.pairingStep
  repeat' split
  all_goals try simp
  all_goals split <;> simp

/-- Claim C7: whenever `handleLogin` persists a credential (`saveToken`),
the identity endpoint accepted exactly that token (`fetchClientMe`
returned a profile for it) and the verification event precedes the save
event in the trace; contrapositively, a token whose verification fails is
never persisted. -/
theorem handleLogin_verifies_before_save
    (clientFetch : String → Nat → clientMe.FetchOutcome)
    (provided existing : Option String) (pairing : Except CliError String)
    (tok : String)
    (hsave : login.LoginEvent.saveTok tok ∈
      (login.handleLogin clientFetch provided existing pairing).2) :
    (∃ u, clientMe.fetchClientMe (clientFetch tok) = Except.ok u) ∧
    ∃ l1 l2, (login.handleLogin clientFetch provided existing pairing).2 =
      l1 ++ [login.LoginEvent.verifyTok tok, login.LoginEvent.saveTok tok] ++ l2 := by
  unfold login.handleLogin login.handleLoginFinish at hsave ⊢
  split at hsave
  · exact absurd hsave (acquireToken_no_save clientFetch provided existing pairing tok)
  · exact absurd hsave (acquireToken_no_save clientFetch provided existing pairing tok)
  · rename_i t heq
    split at hsave
    · exact absurd hsave (acquireToken_no_save clientFetch provided existing pairing tok)
    · rename_i hne
      split at hsave
      · rename_i e hfc
        simp only [List.mem_append, List.mem_singleton] at hsave
        rcases hsave with hin | hbad
        · exact absurd hin (acquireToken_no_save clientFetch provided existing pairing tok)
        · exact absurd hbad (by simp)
      · rename_i u hfc
        simp only [List.mem_append, List.mem_cons, List.mem_singleton] at hsave
        rcases hsave with hin | hbad | hself | habs
        · exact absurd hin (acquireToken_no_save clientFetch provided existing pairing tok)
        · exact absurd hbad (by simp)
        · have htok : tok = auth.jsTrimString t := by
            injection hself
          subst htok
          refine ⟨⟨u, hfc⟩, ⟨(login.acquireToken clientFetch provided existing pairing).2, [], ?_⟩⟩
          simp [heq, hfc, hne]
        · exact absurd habs (by simp)

/-- Claim C7 witness: a concrete successful login (token provided on the
command line, identity endpoint answering 200 with a profile) where the
save event occurs, the token was verified, and verification precedes the
save. -/
theorem handleLogin_verifies_before_save_witness :
    (∃ u, clientMe.fetchClientMe (fixtures.meAccepts "tok_abc123") = Except.ok u) ∧
    ∃ l1 l2, (login.handleLogin fixtures.meAccepts (some "tok_abc123") none
        (Except.error (CliError.error "cancelled"))).2 =
      l1 ++ [login.LoginEvent.verifyTok "tok_abc123",
             login.LoginEvent.saveTok "tok_abc123"] ++ l2 :=
  handleLogin_verifies_before_save fixtures.meAccepts (some "tok_abc123") none
    (Except.error (CliError.error "cancelled")) "tok_abc123"
    (by
      have hvs : (login.handleLogin fixtures.meAccepts (some "tok_abc123") none
          (Except.error (CliError.error "cancelled"))).2 =
        [login.LoginEvent.verifyTok "tok_abc123",
         login.LoginEvent.saveTok "tok_abc123"] := rfl
      rw [hvs]
      simp)

/-- Claim C8 counterexample: masking the credential "tok_abc123" does not
yield the display "tok_...123" given in the end-to-end example of the
spec. -/
theorem maskToken_example_ne_spec_display :
    auth.maskToken "tok_abc123" ≠ "tok_...123" := by decide

/-- Claim C8 as amended: masking the credential "tok_abc123" per the
first-4/last-4 rule yields "tok_...c123" (the last four characters of the
ten-character token are c123, not 123). -/
theorem maskToken_example_display :
    auth.maskToken "tok_abc123" = "tok_...c123" := by decide

/-- Claim C9: for every attempt number n at least 1, the backoff delay of
the pairing transport is min(1000 * 2^(n-1), 30000) milliseconds, and the
credential verifier in clientMe.ts computes the identical delay. -/
theorem getBackoffDelay_formula (n : Nat) (h : 1 ≤ n) :
    appPairingRequest.getBackoffDelay n = min (1000 * 2 ^ (n - 1)) 30000 ∧
    clientMe.getBackoffDelay n = appPairingRequest.getBackoffDelay n :=
  ⟨rfl, rfl⟩

/-- Claim C9 witness: the formula at attempt 3 (a 4-second delay). -/
theorem getBackoffDelay_formula_witness :
    appPairingRequest.getBackoffDelay 3 = min (1000 * 2 ^ (3 - 1)) 30000 ∧
    clientMe.getBackoffDelay 3 = appPairingRequest.getBackoffDelay 3 :=
  getBackoffDelay_formula 3 (by decide)

/-- Claim C10: a token whose trimmed form has at most 8 characters is
masked as the fixed string "********" (no character of the token
appears); a token whose trimmed form is longer than 8 characters is
masked as its first four characters, "...", and its last four
characters. -/
theorem maskToken_masking_rule (s : String) :
    ((auth.jsTrimString s).length ≤ 8 → auth.maskToken s = "********") ∧
    (8 < (auth.jsTrimString s).length →
      auth.maskToken s = ((auth.jsTrimString s).toList.take 4).asString ++ "..." ++
        ((auth.jsTrimString s).toList.drop ((auth.jsTrimString s).toList.length - 4)).asString) := by
  constructor
  · intro h
    simp [auth.maskToken, h]
  · intro h
    simp [auth.maskToken, Nat.not_le.mpr h]

/-- Claim C10 witness: the masking rule at concrete tokens: the 8-character
token "tok_1234" is fully hidden, the 10-character token "tok_abc123"
shows its first and last four characters. -/
theorem maskToken_masking_rule_witness :
    auth.maskToken "tok_1234" = "********" ∧
    auth.maskToken "tok_abc123" =
      ((auth.jsTrimString "tok_abc123").toList.take 4).asString ++ "..." ++
        ((auth.jsTrimString "tok_abc123").toList.drop
          ((auth.jsTrimString "tok_abc123").toList.length - 4)).asString :=
  ⟨(maskToken_masking_rule "tok_1234").1 (by decide),
   (maskToken_masking_rule "tok_abc123").2 (by decide)⟩

end BeeCli
